import Mathlib

/-!
Shallow embedding of `pdblp.py` (nashquant/pdblp): the Bloomberg session
wrapper `BCon`, its event pump `_receive_events`, the recursive element
decoder `_element_to_dict`, and the response parsers
(`_parse_ref`, `_parse_bulkref`, `_bdh_list`, `_check_fieldExceptions`,
`_send_hist`, `start`, `__init__` session adoption).

Python exceptions are modelled with `Except`; mutable session state
(the blpapi event queue and sent requests) is threaded explicitly.
-/

namespace Pdblp

/-- Event types used by `pdblp.py` (`blpapi.Event.*`).  `admin` stands for
any further `blpapi` event type that is absent from `_EVENT_DICT`. -/
inductive EvType where
  | sessionStatus
  | serviceStatus
  | response
  | partialResponse
  | timeout
  | request
  | admin
deriving DecidableEq, Repr

/-- Table `_EVENT_DICT`: partial lookup from event type to name; a lookup of
a type outside the table raises `KeyError` in Python (modelled by `none`). -/
def _EVENT_DICT : EvType → Option String
  | .sessionStatus => some "SESSION_STATUS"
  | .response => some "RESPONSE"
  | .partialResponse => some "PARTIAL_RESPONSE"
  | .serviceStatus => some "SERVICE_STATUS"
  | .timeout => some "TIMEOUT"
  | .request => some "REQUEST"
  | .admin => none

/-- Test `ev.eventType() in _RESPONSE_TYPES` where
`_RESPONSE_TYPES = [blpapi.Event.RESPONSE, blpapi.Event.PARTIAL_RESPONSE]`. -/
def isResponseType (t : EvType) : Bool :=
  t = EvType.response || t = EvType.partialResponse

/-- Scalar values returned by `elem.getValue()` of a leaf element. -/
inductive BlpValue where
  | vstr (s : String)
  | vint (n : Int)
  | vbool (b : Bool)
deriving DecidableEq, Repr

/-- A well-formed `blpapi.Element` node as inspected by `_element_to_dict`:
the function's cascade `isinstance(elem, str)` / `datatype() == CHOICE` /
`isArray()` / `datatype() == SEQUENCE` / leaf maps onto the constructors
`estr` / `choiceE` / `arrayE` / `seqE` / `leafE`.  A leaf carries its
`isNull()` flag and its `getValue()` outcome, where `Except.error` models
`getValue()` raising. -/
inductive Elem where
  | estr (s : String)
  | choiceE (name : String) (selected : Elem)
  | arrayE (name : String) (values : List Elem)
  | seqE (name : String) (children : List (String × Elem))
  | leafE (name : String) (isNull : Bool) (getValue : Except Unit BlpValue)

/-- A decoded Python value as produced by `_element_to_dict`:
`pystr` a `str`, `pynone` is `None`, `pyval` a scalar from `getValue()`,
`pylist` a `list`, `pydict` a `dict` (insertion ordered). -/
inductive Doc where
  | pystr (s : String)
  | pynone
  | pyval (v : BlpValue)
  | pylist (ds : List Doc)
  | pydict (entries : List (String × Doc))

mutual

/-- Model of `_element_to_dict(elem)`: recursively convert an element to generic
Python data.  A `str` input is returned as is; a CHOICE wraps the decoded
selection in a singleton dict keyed by the element name; an array maps the
decoder over its values; a SEQUENCE produces
`{elem.name(): {child.name(): decode(child) for child in elem.elements()}}`;
a leaf returns `None` when `isNull()`, otherwise `getValue()` with any
extraction exception swallowed into `None`. -/
def _element_to_dict : Elem → Doc
  | .estr s => .pystr s
  | .choiceE name sel => .pydict [(name, _element_to_dict sel)]
  | .arrayE _ vs => .pylist (_element_list_to_dict vs)
  | .seqE name cs => .pydict [(name, .pydict (_element_named_to_dict cs))]
  | .leafE _ true _ => .pynone
  | .leafE _ false g =>
    match g with
    | .ok v => .pyval v
    | .error _ => .pynone

/-- Decode of `[_element_to_dict(v) for v in elem.values()]`. -/
def _element_list_to_dict : List Elem → List Doc
  | [] => []
  | e :: r => _element_to_dict e :: _element_list_to_dict r

/-- Decode of `{str(e.name()): _element_to_dict(e) for e in elem.elements()}`. -/
def _element_named_to_dict : List (String × Elem) → List (String × Doc)
  | [] => []
  | (n, e) :: r => (n, _element_to_dict e) :: _element_named_to_dict r

end

/-- A raw `blpapi.Message` as consumed by `message_to_dict`:
`correlationIds()` values, `messageType()`, `topicName()`, `asElement()`. -/
structure RawMsg where
  correlationIds : List String
  messageType : String
  topicName : String
  element : Elem

/-- The dict produced by `message_to_dict(msg)`. -/
structure DictMsg where
  correlationIds : List String
  messageType : String
  topicName : String
  element : Doc

/-- Model of `message_to_dict(msg)`. -/
def message_to_dict (m : RawMsg) : DictMsg :=
  { correlationIds := m.correlationIds
    messageType := m.messageType
    topicName := m.topicName
    element := _element_to_dict m.element }

/-- A `blpapi.Event`: an event type together with the messages obtained by
iterating over the event. -/
structure Event where
  type : EvType
  msgs : List RawMsg

/-- A Python value appearing as one entry of a row datum appended to `data`
by the parsers: `np.NaN`, a `str`, a decoded value, or an `int` position. -/
inductive PyCell where
  | nan
  | pstr (s : String)
  | pdoc (d : Doc)
  | pnat (i : Nat)

/-- One datum list appended to `data` by a parser. -/
abbrev Row := List PyCell

/-- Python exceptions raised by `pdblp.py`, keyed by exception class and
constructor arguments.  `valueErrorRows` is `ValueError(data)` (the
accumulated row list as the exception's argument, `_bdh_list` line 310);
`exhausted` is a model artifact for a poll of an event source with no
further events (where the real `nextEvent()` would block). -/
inductive PdblpErr where
  | valueError (msg : String)
  | valueErrorRows (rows : List Row)
  | runtimeError (msg : String)
  | connectionError (msg : String)
  | keyError (key : String)
  | typeError (msg : String)
  | exhausted

/-- Model of `BCon._receive_events(sent_events, to_dict=True)` run against the list
of events the session will deliver.  `timeout` is `self.timeout`, passed to
every `nextEvent` poll (the stream of delivered events is given, so it does
not otherwise influence the model).  The counter is an `Int` as in Python,
where `sent_events -= 1` may pass through zero only once.  On the terminal
`break` the unconsumed suffix of the stream is returned together with all
yielded (decoded) messages. -/
def _receive_events (timeout : Nat) (sent_events : Int) :
    List Event → Except PdblpErr (List DictMsg × List Event)
  | [] => .error .exhausted
  | ev :: rest =>
    match _EVENT_DICT ev.type with
    | none => .error (.keyError "eventType")
    | some ev_name =>
      let ys : List DictMsg :=
        if isResponseType ev.type then ev.msgs.map message_to_dict else []
      if ev.type = EvType.response then
        if sent_events - 1 = 0 then .ok (ys, rest)
        else
          match _receive_events timeout (sent_events - 1) rest with
          | .ok (ms, rem) => .ok (ys ++ ms, rem)
          | .error e => .error e
      else if isResponseType ev.type then
        match _receive_events timeout sent_events rest with
        | .ok (ms, rem) => .ok (ys ++ ms, rem)
        | .error e => .error e
      else if ev.type = EvType.timeout then
        .error (.runtimeError "Timeout, increase BCon.timeout attribute")
      else
        .error (.runtimeError ("Unexpected Event Type: '" ++ ev_name ++ "'"))

/-- Number of `RESPONSE`-typed events in a stream. -/
def countResponses (evs : List Event) : Nat :=
  (evs.filter (fun e => e.type = EvType.response)).length

/-- The messages contained in the response-typed events of a stream, decoded
with `message_to_dict`, in delivery order. -/
def yieldedMsgs (evs : List Event) : List DictMsg :=
  evs.flatMap (fun e => e.msgs.map message_to_dict)

/-- Running `_receive_events` with the counter set to the number of
`RESPONSE` events of a stream segment that ends in a `RESPONSE` event and
holds only response-typed events consumes exactly that segment, yielding
its decoded messages. -/
theorem receive_events_run (t : Nat) :
    ∀ (pre : List Event) (evL : Event) (post : List Event),
      evL.type = EvType.response →
      (∀ e ∈ pre, e.type = EvType.response ∨ e.type = EvType.partialResponse) →
      _receive_events t (countResponses (pre ++ [evL]) : Int) (pre ++ [evL] ++ post)
        = .ok (yieldedMsgs (pre ++ [evL]), post) := by
  intro pre
  induction pre with
  | nil =>
    intro evL post hL _
    have hc : countResponses ([] ++ [evL]) = 1 := by
      simp [countResponses, List.filter, hL]
    rw [hc]
    simp [_receive_events, hL, _EVENT_DICT, isResponseType, yieldedMsgs]
  | cons e pre' ih =>
    intro evL post hL hAll
    have he := hAll e (List.mem_cons_self e _)
    have hAll' : ∀ x ∈ pre', x.type = EvType.response ∨ x.type = EvType.partialResponse :=
      fun x hx => hAll x (List.mem_cons_of_mem _ hx)
    have hpos : 1 ≤ countResponses (pre' ++ [evL]) := by
      simp [countResponses, List.filter_append, List.filter, hL]
    have hstep := ih evL post hL hAll'
    rcases he with he | he
    · have hc : countResponses ((e :: pre') ++ [evL])
          = countResponses (pre' ++ [evL]) + 1 := by
        simp [countResponses, List.filter, he]
      rw [hc]
      have hcast : ((countResponses (pre' ++ [evL]) + 1 : Nat) : Int) - 1
          = ((countResponses (pre' ++ [evL]) : Nat) : Int) := by push_cast; ring
      have hne : ((countResponses (pre' ++ [evL]) : Nat) : Int) ≠ 0 := by
        exact_mod_cast Nat.one_le_iff_ne_zero.mp hpos
      rw [List.append_assoc, List.singleton_append] at hstep
      simp only [List.cons_append, _receive_events, he, _EVENT_DICT, isResponseType,
        if_true, hcast]
      simp [hne, hstep, yieldedMsgs, he, isResponseType]
    · have hc : countResponses ((e :: pre') ++ [evL])
          = countResponses (pre' ++ [evL]) := by
        simp [countResponses, List.filter, he]
      rw [hc]
      rw [List.append_assoc, List.singleton_append] at hstep
      simp only [List.cons_append, _receive_events, he, _EVENT_DICT, isResponseType]
      simp [hstep, yieldedMsgs, he, isResponseType]

/-- Claim C1 (confirmed): for every call of the event pump with
`sent_events = N ≥ 1` against a delivered stream whose prefix up to and
including its `N`-th `RESPONSE`-typed event consists only of
`RESPONSE`/`PARTIAL_RESPONSE` events, `_receive_events` yields exactly the
decoded messages of every event of that prefix, in delivery order, and
stops exactly after that `N`-th `RESPONSE` event: the events after it are
left unconsumed, regardless of how many `PARTIAL_RESPONSE` events precede
each `RESPONSE`. -/
theorem C1_receive_events_yields_until_nth_response
    (t : Nat) (N : Nat) (pre post : List Event)
    (_hN : 1 ≤ N)
    (hShape : ∃ pre' evL, pre = pre' ++ [evL] ∧ evL.type = EvType.response)
    (hAll : ∀ e ∈ pre, e.type = EvType.response ∨ e.type = EvType.partialResponse)
    (hCount : countResponses pre = N) :
    _receive_events t (N : Int) (pre ++ post) = .ok (yieldedMsgs pre, post) := by
  rcases hShape with ⟨pre', evL, rfl, hL⟩
  rw [← hCount]
  exact receive_events_run t pre' evL post hL
    (fun e he => hAll e (List.mem_append_left _ he))

/-- Witness for C1: a concrete stream with one `PARTIAL_RESPONSE`, then two
`RESPONSE` events (`N = 2`), followed by a `SESSION_STATUS` event that must
be left unconsumed. -/
theorem C1_receive_events_yields_until_nth_response_witness :
    _receive_events 500 ((2 : Nat) : Int)
        ([⟨EvType.partialResponse, [⟨[], "mt1", "t1", Elem.estr "a"⟩]⟩,
          ⟨EvType.response, []⟩,
          ⟨EvType.response, [⟨[], "mt2", "t2", Elem.estr "b"⟩]⟩]
          ++ [⟨EvType.sessionStatus, []⟩])
      = .ok (yieldedMsgs
          [⟨EvType.partialResponse, [⟨[], "mt1", "t1", Elem.estr "a"⟩]⟩,
           ⟨EvType.response, []⟩,
           ⟨EvType.response, [⟨[], "mt2", "t2", Elem.estr "b"⟩]⟩],
          [⟨EvType.sessionStatus, []⟩]) := by
  refine C1_receive_events_yields_until_nth_response 500 2
      [⟨EvType.partialResponse, [⟨[], "mt1", "t1", Elem.estr "a"⟩]⟩,
       ⟨EvType.response, []⟩,
       ⟨EvType.response, [⟨[], "mt2", "t2", Elem.estr "b"⟩]⟩]
      [⟨EvType.sessionStatus, []⟩] (by decide)
      ⟨[⟨EvType.partialResponse, [⟨[], "mt1", "t1", Elem.estr "a"⟩]⟩,
        ⟨EvType.response, []⟩],
       ⟨EvType.response, [⟨[], "mt2", "t2", Elem.estr "b"⟩]⟩, rfl, rfl⟩
      ?_ (by rfl)
  intro e he
  simp only [List.mem_cons, List.not_mem_nil, or_false] at he
  rcases he with rfl | rfl | rfl
  · exact Or.inr rfl
  · exact Or.inl rfl
  · exact Or.inl rfl

/-- Whether `sub` occurs as a contiguous prefix at some position of `l`. -/
def subOccurs (sub : List Char) : List Char → Bool
  | [] => sub.isEmpty
  | c :: r => sub.isPrefixOf (c :: r) || subOccurs sub r

/-- Whether `sub` occurs as a contiguous substring of `s`. -/
def strContains (s sub : String) : Bool :=
  subOccurs sub.data s.data

/-- The pump `_receive_events` never reads the configured timeout except to hand it
to `nextEvent`: against a given delivered stream its outcome — including
every raised error message — is independent of the timeout value. -/
theorem receive_events_timeout_independent :
    ∀ (evs : List Event) (s : Int) (t t' : Nat),
      _receive_events t s evs = _receive_events t' s evs := by
  intro evs
  induction evs with
  | nil => intro s t t'; rfl
  | cons ev rest ih =>
    intro s t t'
    simp only [_receive_events]
    rw [ih (s - 1) t t', ih s t t']

/-- Claim C9 (counterexample): a pump configured with `timeout = 500` that
polls a `TIMEOUT` event raises `RuntimeError` with the fixed message
`"Timeout, increase BCon.timeout attribute"`; this message does not
contain the configured wait duration `500` (and the raised error is the
same for a pump configured with `timeout = 12345`), so the claim that the
error message names the configured wait duration is false. -/
theorem C9_counterexample_timeout_message_lacks_duration :
    _receive_events 500 1 [⟨EvType.timeout, []⟩]
        = .error (.runtimeError "Timeout, increase BCon.timeout attribute")
      ∧ strContains "Timeout, increase BCon.timeout attribute" "500" = false
      ∧ _receive_events 500 1 [⟨EvType.timeout, []⟩]
          = _receive_events 12345 1 [⟨EvType.timeout, []⟩] :=
  ⟨rfl, by decide, receive_events_timeout_independent [⟨EvType.timeout, []⟩] 1 500 12345⟩

/-- Claim C9 (amended): every poll during event reception that yields a
`TIMEOUT`-typed event makes the pump raise — rather than consume the event
silently — a `RuntimeError` with the fixed message
`"Timeout, increase BCon.timeout attribute"`, which names the timeout
attribute to raise but not the configured duration value: the raised error
is independent of the configured timeout. -/
theorem C9_amended_timeout_event_raises
    (t : Nat) (s : Int) (ev : Event) (evs : List Event)
    (h : ev.type = EvType.timeout) :
    _receive_events t s (ev :: evs)
        = .error (.runtimeError "Timeout, increase BCon.timeout attribute")
      ∧ ∀ t' : Nat, _receive_events t' s (ev :: evs) = _receive_events t s (ev :: evs) := by
  constructor
  · simp [_receive_events, h, _EVENT_DICT, isResponseType]
  · intro t'
    exact receive_events_timeout_independent (ev :: evs) s t' t

/-- Witness for the amended C9 at a concrete `TIMEOUT` event. -/
theorem C9_amended_timeout_event_raises_witness :
    _receive_events 500 1 [⟨EvType.timeout, []⟩, ⟨EvType.response, []⟩]
        = .error (.runtimeError "Timeout, increase BCon.timeout attribute")
      ∧ ∀ t' : Nat,
          _receive_events t' 1 [⟨EvType.timeout, []⟩, ⟨EvType.response, []⟩]
            = _receive_events 500 1 [⟨EvType.timeout, []⟩, ⟨EvType.response, []⟩] :=
  C9_amended_timeout_event_raises 500 1 ⟨EvType.timeout, []⟩ [⟨EvType.response, []⟩] rfl

/-- Claim C2 (confirmed): the element decoder (a total function over every well-formed
input node, so decoding never raises) sends a null leaf to the explicit
null marker `None` — never an empty string, and never an omitted entry: a
null child of a record still contributes its named entry — and a leaf
whose value extraction raises decodes to `None` instead of propagating. -/
theorem C2_decoder_total_null_handling :
    (∀ name g, _element_to_dict (Elem.leafE name true g) = Doc.pynone)
    ∧ (∀ name e, _element_to_dict (Elem.leafE name false (Except.error e)) = Doc.pynone)
    ∧ Doc.pynone ≠ Doc.pystr ""
    ∧ (∀ name cname g cs,
        _element_named_to_dict ((cname, Elem.leafE name true g) :: cs)
          = (cname, Doc.pynone) :: _element_named_to_dict cs) :=
  ⟨fun _ _ => rfl, fun _ _ => rfl, fun h => Doc.noConfusion h, fun _ _ _ _ => rfl⟩

/-- Decoding named children with `_element_named_to_dict` is the map of the decoder. -/
theorem element_named_to_dict_eq_map (cs : List (String × Elem)) :
    _element_named_to_dict cs = cs.map (fun p => (p.1, _element_to_dict p.2)) := by
  induction cs with
  | nil => rfl
  | cons p r ih => cases p; simp [_element_named_to_dict, ih]

/-- Claim C7 (counterexample): decoding a record node named `fieldData` with
the single child `PX_LAST` produces a singleton dict keyed by the record's
own name `fieldData`, wrapping the child dict — not the child dict alone —
so the claim that there is no additional wrapping layer is false. -/
theorem C7_counterexample_record_extra_layer :
    _element_to_dict (Elem.seqE "fieldData"
        [("PX_LAST", Elem.leafE "PX_LAST" false (Except.ok (BlpValue.vstr "1")))])
      = Doc.pydict [("fieldData", Doc.pydict [("PX_LAST", Doc.pyval (BlpValue.vstr "1"))])]
    ∧ Doc.pydict [("fieldData", Doc.pydict [("PX_LAST", Doc.pyval (BlpValue.vstr "1"))])]
      ≠ Doc.pydict [("PX_LAST", Doc.pyval (BlpValue.vstr "1"))] := by
  refine ⟨rfl, ?_⟩
  intro h
  injection h with h1
  injection h1 with h2 h3
  injection h2 with h4 h5
  exact absurd h4 (by decide)

/-- Claim C7 (amended): decoding a record node (a "sequence" of named
children) produces a single-entry `Mapping` from the node's own name to an
inner `Mapping` from each child's name to the decoded child, preserving
declaration order — one additional wrapping layer keyed by the record's
name beyond the name-to-decoded-child mapping. -/
theorem C7_amended_record_decode_wrapped (name : String) (cs : List (String × Elem)) :
    _element_to_dict (Elem.seqE name cs)
      = Doc.pydict [(name, Doc.pydict (cs.map (fun p => (p.1, _element_to_dict p.2))))]
    ∧ (cs.map (fun p => (p.1, _element_to_dict p.2))).map Prod.fst = cs.map Prod.fst := by
  constructor
  · simp [_element_to_dict, element_named_to_dict_eq_map]
  · simp

/-! ## Decoded response records

The parsers `_parse_ref`, `_parse_bulkref`, `_bdh_list` and
`_check_fieldExceptions` operate on the dicts produced by
`message_to_dict`.  The fixed dict shapes they access are modelled as
structures whose field names are the dict keys they look up; generic,
field-keyed dicts stay association lists of `Doc`. -/

/-- Shape of `fe['errorInfo']['errorInfo']` of a field-exception record. -/
structure ErrorInfoInner where
  subcategory : String
deriving DecidableEq, Repr

/-- Shape of `fe['errorInfo']` of a field-exception record. -/
structure ErrorInfoOuter where
  errorInfo : ErrorInfoInner
deriving DecidableEq, Repr

/-- Shape of `fe = fe_dict['fieldExceptions']`: the field id and nested error info of
one field exception. -/
structure FieldExceptionRec where
  fieldId : String
  errorInfo : ErrorInfoOuter
deriving DecidableEq, Repr

/-- One entry `fe_dict` of a record's `fieldExceptions` sequence. -/
structure FieldExceptionEntry where
  fieldExceptions : FieldExceptionRec
deriving DecidableEq, Repr

/-- Model of `BCon._check_fieldExceptions(field_exceptions)`: iterate over the
entries and raise `ValueError('{fieldId}: INVALID_FIELD')` on the first one
whose `errorInfo.errorInfo.subcategory` equals `'INVALID_FIELD'`. -/
def _check_fieldExceptions : List FieldExceptionEntry → Except PdblpErr Unit
  | [] => .ok ()
  | fe_dict :: rest =>
    let fe := fe_dict.fieldExceptions
    if fe.errorInfo.errorInfo.subcategory = "INVALID_FIELD" then
      .error (.valueError (fe.fieldId ++ ": INVALID_FIELD"))
    else
      _check_fieldExceptions rest

/-- Shape of `secData['fieldData']` of a reference response (and each element of
`d['securityData']['fieldData']` of a historical response): a dict whose
key `fieldData` holds the field-keyed dict, decoded as an association
list in insertion order. -/
structure FieldDataW where
  fieldData : List (String × Doc)

/-- Shape of `security_data_dict['securityData']` of a `ReferenceDataResponse`:
`security` is the subject name, `securityError` is `some` exactly when the
dict contains the `securityError` key, `fieldExceptions` the exception
sequence, and `fieldData` the wrapped field-keyed dict. -/
structure SecurityData where
  security : String
  securityError : Option Doc
  fieldExceptions : List FieldExceptionEntry
  fieldData : FieldDataW

/-- One element `security_data_dict` of
`msg['element']['ReferenceDataResponse']`. -/
structure SecurityDataDict where
  securityData : SecurityData

/-- The per-field loop of `_parse_ref` over one resolved subject
(`keep_corrId=False`, so `corrId = []` and `datum.extend(corrId)` is the
identity): a field present with a `list` value raises
`ValueError('Field {fld!r} returns bulk reference data which is not
supported')`; an absent field appends `[ticker, fld, np.NaN]`; a present
scalar field appends `[ticker, fld, value]`. -/
def _parse_ref_flds (ticker : String) (fieldData : List (String × Doc)) :
    List String → Except PdblpErr (List Row)
  | [] => .ok []
  | fld :: rest =>
    match fieldData.lookup fld with
    | some (Doc.pylist _) =>
      .error (.valueError
        ("Field '" ++ fld ++ "' returns bulk reference data which is not supported"))
    | some v =>
      match _parse_ref_flds ticker fieldData rest with
      | .error e => .error e
      | .ok rs => .ok ([.pstr ticker, .pstr fld, .pdoc v] :: rs)
    | none =>
      match _parse_ref_flds ticker fieldData rest with
      | .error e => .error e
      | .ok rs => .ok ([.pstr ticker, .pstr fld, .nan] :: rs)

/-- The per-subject loop of `_parse_ref`: a record containing the
`securityError` key raises `ValueError('Unknow security {ticker!r}')`;
otherwise field exceptions are checked and the per-field rows of every
subject are accumulated in order. -/
def _parse_ref_secs (flds : List String) :
    List SecurityDataDict → Except PdblpErr (List Row)
  | [] => .ok []
  | sdd :: rest =>
    let secData := sdd.securityData
    if secData.securityError.isSome then
      .error (.valueError ("Unknow security '" ++ secData.security ++ "'"))
    else
      match _check_fieldExceptions secData.fieldExceptions with
      | .error e => .error e
      | .ok _ =>
        match _parse_ref_flds secData.security secData.fieldData.fieldData flds with
        | .error e => .error e
        | .ok rows =>
          match _parse_ref_secs flds rest with
          | .error e => .error e
          | .ok more => .ok (rows ++ more)

/-- Model of `BCon._parse_ref(flds, keep_corrId=False)` over the decoded messages
delivered by `_receive_events`: each message contributes the rows of every
`security_data_dict` in its `ReferenceDataResponse` list. -/
def _parse_ref (flds : List String) :
    List (List SecurityDataDict) → Except PdblpErr (List Row)
  | [] => .ok []
  | m :: rest =>
    match _parse_ref_secs flds m with
    | .error e => .error e
    | .ok rows =>
      match _parse_ref flds rest with
      | .error e => .error e
      | .ok more => .ok (rows ++ more)

/-- Subscript `data_dict[fld]` then `.items()`: each element of a bulk array must be
a dict holding the key `fld` whose value is again a dict; `keyError` models
Python's `KeyError`, `typeError` a non-dict subscript. -/
def bulk_data_dict_items (fld : String) (data_dict : Doc) :
    Except PdblpErr (List (String × Doc)) :=
  match data_dict with
  | .pydict es =>
    match es.lookup fld with
    | none => .error (.keyError fld)
    | some (Doc.pydict inner) => .ok inner
    | some _ => .error (.typeError "argument of type is not iterable as items")
  | _ => .error (.typeError "not subscriptable")

/-- Loop `for i, data_dict in enumerate(fieldData[fld])` of `_parse_bulkref`:
one row `[ticker, fld, name, value, i]` per item of each element's inner
dict, with `i` the zero-based element position. -/
def _parse_bulkref_elems (ticker fld : String) (i : Nat) :
    List Doc → Except PdblpErr (List Row)
  | [] => .ok []
  | data_dict :: rest =>
    match bulk_data_dict_items fld data_dict with
    | .error e => .error e
    | .ok items =>
      match _parse_bulkref_elems ticker fld (i + 1) rest with
      | .error e => .error e
      | .ok more =>
        .ok ((items.map
          (fun p => [.pstr ticker, .pstr fld, .pstr p.1, .pdoc p.2, .pnat i])) ++ more)

/-- The per-field loop of `_parse_bulkref` over one resolved subject
(`keep_corrId=False`): a field present with a non-`list` value raises
`ValueError('Cannot parse field {fld!r} which is not bulk reference
data')`; a present `list` field contributes its enumerated element rows; an
absent field appends `[ticker, fld, np.NaN, np.NaN, np.NaN]`. -/
def _parse_bulkref_flds (ticker : String) (fieldData : List (String × Doc)) :
    List String → Except PdblpErr (List Row)
  | [] => .ok []
  | fld :: rest =>
    match fieldData.lookup fld with
    | some (Doc.pylist elems) =>
      match _parse_bulkref_elems ticker fld 0 elems with
      | .error e => .error e
      | .ok rows =>
        match _parse_bulkref_flds ticker fieldData rest with
        | .error e => .error e
        | .ok more => .ok (rows ++ more)
    | some _ =>
      .error (.valueError
        ("Cannot parse field '" ++ fld ++ "' which is not bulk reference data"))
    | none =>
      match _parse_bulkref_flds ticker fieldData rest with
      | .error e => .error e
      | .ok more => .ok ([.pstr ticker, .pstr fld, .nan, .nan, .nan] :: more)

/-- The per-subject loop of `_parse_bulkref`, sharing the security-error
and field-exception checks of `_parse_ref`. -/
def _parse_bulkref_secs (flds : List String) :
    List SecurityDataDict → Except PdblpErr (List Row)
  | [] => .ok []
  | sdd :: rest =>
    let secData := sdd.securityData
    if secData.securityError.isSome then
      .error (.valueError ("Unknow security '" ++ secData.security ++ "'"))
    else
      match _check_fieldExceptions secData.fieldExceptions with
      | .error e => .error e
      | .ok _ =>
        match _parse_bulkref_flds secData.security secData.fieldData.fieldData flds with
        | .error e => .error e
        | .ok rows =>
          match _parse_bulkref_secs flds rest with
          | .error e => .error e
          | .ok more => .ok (rows ++ more)

/-- Model of `BCon._parse_bulkref(flds, keep_corrId=False)` over the decoded
messages delivered by `_receive_events`. -/
def _parse_bulkref (flds : List String) :
    List (List SecurityDataDict) → Except PdblpErr (List Row)
  | [] => .ok []
  | m :: rest =>
    match _parse_bulkref_secs flds m with
    | .error e => .error e
    | .ok rows =>
      match _parse_bulkref flds rest with
      | .error e => .error e
      | .ok more => .ok (rows ++ more)

/-- Shape of `msg['element']['HistoricalDataResponse']['securityData']`:
unlike the reference response, `fieldData` is an array of per-date wrapped
records. -/
structure HistSecurityData where
  security : String
  securityError : Option Doc
  fieldExceptions : List FieldExceptionEntry
  fieldData : List FieldDataW

/-- Shape of `msg['element']['HistoricalDataResponse']` as accessed by
`_bdh_list` (the `securityData` key). -/
structure HistResponse where
  securityData : HistSecurityData

/-- Inner loop of `_bdh_list` over one `fd['fieldData']` record: for every
item other than `date` append `(fd['fieldData']['date'], ticker, fname,
value)`; the `date` lookup raises `KeyError` when the key is absent. -/
def _bdh_fd_rows (ticker : String) (fdAll : List (String × Doc)) :
    List (String × Doc) → Except PdblpErr (List Row)
  | [] => .ok []
  | (fname, value) :: rest =>
    if fname = "date" then _bdh_fd_rows ticker fdAll rest
    else
      match fdAll.lookup "date" with
      | none => .error (.keyError "date")
      | some dt =>
        match _bdh_fd_rows ticker fdAll rest with
        | .error e => .error e
        | .ok rs => .ok ([.pdoc dt, .pstr ticker, .pstr fname, .pdoc value] :: rs)

/-- Rows of one historical message: `for fd in fldDatas` over the per-date
records of `d['securityData']['fieldData']`. -/
def _bdh_sec_rows (ticker : String) : List FieldDataW → Except PdblpErr (List Row)
  | [] => .ok []
  | fd :: rest =>
    match _bdh_fd_rows ticker fd.fieldData fd.fieldData with
    | .error e => .error e
    | .ok rs =>
      match _bdh_sec_rows ticker rest with
      | .error e => .error e
      | .ok more => .ok (rs ++ more)

/-- Loop of `_bdh_list` with the rows accumulated so far: a message whose
record has a `securityError` key or a non-empty `fieldExceptions` sequence
raises `ValueError(data)` carrying exactly the accumulated rows. -/
def _bdh_list_aux (acc : List Row) : List HistResponse → Except PdblpErr (List Row)
  | [] => .ok acc
  | m :: rest =>
    let d := m.securityData
    if d.securityError.isSome || decide (0 < d.fieldExceptions.length) then
      .error (.valueErrorRows acc)
    else
      match _bdh_sec_rows d.security d.fieldData with
      | .error e => .error e
      | .ok rs => _bdh_list_aux (acc ++ rs) rest

/-- Model of `BCon._bdh_list` over the decoded messages delivered by
`_receive_events()`. -/
def _bdh_list (msgs : List HistResponse) : Except PdblpErr (List Row) :=
  _bdh_list_aux [] msgs

/-! ## Session state: adoption, start, multi-send -/

/-- One request sent on the session by `_send_hist`, recorded with the
iteratively overridden date field and value (its `CorrelationId(dt)`). -/
structure SentRequest where
  dateField : String
  dateValue : String
deriving DecidableEq, Repr

/-- Mutable session state visible to the model: the inbound event queue and
the requests sent so far. -/
structure SessionState where
  queue : List Event
  sent : List SentRequest

/-- Model of `session.nextEvent(timeout)` against the queue: the head
event, or a `TIMEOUT`-typed event when the queue is empty. -/
def nextEventSt (st : SessionState) : Event × SessionState :=
  match st.queue with
  | [] => (⟨EvType.timeout, []⟩, st)
  | e :: r => (e, { st with queue := r })

/-- Session-adoption branch of `BCon.__init__` (a caller-supplied session):
a single `session.nextEvent(timeout)` poll is performed; an event of any
type other than `TIMEOUT` raises `ValueError('Flush event queue of
blpapi.Session prior to instantiation')`, and only a `TIMEOUT` event lets
the session be accepted.  No request is sent. -/
def bcon_init_adopt (timeout : Nat) (st : SessionState) :
    SessionState × Except PdblpErr Unit :=
  let p := nextEventSt st
  if p.1.type ≠ EvType.timeout then
    (p.2,
     .error (.valueError "Flush event queue of blpapi.Session prior to instantiation"))
  else (p.2, .ok ())

/-- Model of `BCon._send_hist(tickers, flds, dates, date_field, ovrds)`
restricted to its effect on the session: `_create_req` first drains every
stale event (`while self._session.tryNextEvent(): pass`), then
`raise ValueError('dates must by non empty')` fires on an empty date list
before the send loop; otherwise one request per date is sent, tagged with
`CorrelationId(dt)` for the overridden `date_field`. -/
def _send_hist (dates : List String) (date_field : String) (st : SessionState) :
    SessionState × Except PdblpErr Unit :=
  let st1 : SessionState := { st with queue := [] }
  if dates.length = 0 then
    (st1, .error (.valueError "dates must by non empty"))
  else
    (dates.foldl (fun s dt => { s with sent := s.sent ++ [⟨date_field, dt⟩] }) st1,
     .ok ())

/-- Model of `BCon.start()` up to (but not including) the
`_init_services()` call, given the outcome of `self._session.start()` and
the events the session will deliver; `.ok rest` means control falls
through to `_init_services()` with `rest` still queued.  When `started`,
two events are awaited without timeout (an empty stream blocks, modelled
as `exhausted`) and each must be `SESSION_STATUS`, else `RuntimeError`.
When not `started`, one `nextEvent(self.timeout)` poll (an empty stream
delivers a `TIMEOUT` event) raises
`ConnectionError('Could not start blpapi.Session')` only when it yields a
`SESSION_STATUS` event; any other event — a `TIMEOUT` included — falls
through to service initialization. -/
def start (started : Bool) (timeout : Nat) (evs : List Event) :
    Except PdblpErr (List Event) :=
  if started then
    match evs with
    | [] => .error .exhausted
    | ev1 :: rest1 =>
      match _EVENT_DICT ev1.type with
      | none => .error (.keyError "eventType")
      | some n1 =>
        if ev1.type ≠ EvType.sessionStatus then
          .error (.runtimeError
            ("Expected a \"SESSION_STATUS\" event but received a '" ++ n1 ++ "'"))
        else
          match rest1 with
          | [] => .error .exhausted
          | ev2 :: rest2 =>
            match _EVENT_DICT ev2.type with
            | none => .error (.keyError "eventType")
            | some n2 =>
              if ev2.type ≠ EvType.sessionStatus then
                .error (.runtimeError
                  ("Expected a \"SESSION_STATUS\" event but received a '" ++ n2 ++ "'"))
              else .ok rest2
  else
    match evs with
    | [] => .ok []
    | ev :: rest =>
      if ev.type = EvType.sessionStatus then
        .error (.connectionError "Could not start blpapi.Session")
      else .ok rest

/-! ## Claim theorems (validators and session state) -/

/-- Claim C4 (confirmed): `_check_fieldExceptions` succeeds exactly when no
entry's nested error-info subcategory equals `INVALID_FIELD`, and whenever
it raises, the raised fault is a `ValueError` naming the offending field id
of an entry whose subcategory is `INVALID_FIELD`; entries with any other
subcategory never cause a raise. -/
theorem C4_check_field_exceptions_invalid_field (l : List FieldExceptionEntry) :
    (_check_fieldExceptions l = .ok () ↔
      ∀ fe ∈ l, fe.fieldExceptions.errorInfo.errorInfo.subcategory ≠ "INVALID_FIELD")
    ∧ (∀ e, _check_fieldExceptions l = .error e →
        ∃ fed ∈ l,
          fed.fieldExceptions.errorInfo.errorInfo.subcategory = "INVALID_FIELD"
            ∧ e = .valueError (fed.fieldExceptions.fieldId ++ ": INVALID_FIELD")) := by
  induction l with
  | nil =>
    refine ⟨?_, ?_⟩
    · simp [_check_fieldExceptions]
    · intro e h
      simp [_check_fieldExceptions] at h
  | cons fe rest ih =>
    by_cases hs : fe.fieldExceptions.errorInfo.errorInfo.subcategory = "INVALID_FIELD"
    · refine ⟨?_, ?_⟩
      · simp only [_check_fieldExceptions, hs, if_true]
        constructor
        · intro h; exact absurd h (by simp)
        · intro hall; exact absurd hs (hall fe (List.mem_cons_self _ _))
      · intro e h
        simp only [_check_fieldExceptions, hs, if_true] at h
        injection h with h'
        exact ⟨fe, List.mem_cons_self _ _, hs, h'.symm⟩
    · refine ⟨?_, ?_⟩
      · rw [show _check_fieldExceptions (fe :: rest) = _check_fieldExceptions rest from by
            simp only [_check_fieldExceptions, hs, if_false]]
        rw [ih.1]
        constructor
        · intro hall x hx
          rcases List.mem_cons.mp hx with rfl | hx
          · exact hs
          · exact hall x hx
        · intro hall x hx
          exact hall x (List.mem_cons_of_mem _ hx)
      · intro e h
        rw [show _check_fieldExceptions (fe :: rest) = _check_fieldExceptions rest from by
            simp only [_check_fieldExceptions, hs, if_false]] at h
        rcases ih.2 e h with ⟨fed, hmem, hsub, he⟩
        exact ⟨fed, List.mem_cons_of_mem _ hmem, hsub, he⟩

/-- Witness for C4: the concrete entry `BAD_FLD` with subcategory
`INVALID_FIELD` raises a fault naming `BAD_FLD`. -/
theorem C4_check_field_exceptions_invalid_field_witness :
    ∃ fed ∈ ([⟨⟨"BAD_FLD", ⟨⟨"INVALID_FIELD"⟩⟩⟩⟩] : List FieldExceptionEntry),
      fed.fieldExceptions.errorInfo.errorInfo.subcategory = "INVALID_FIELD"
        ∧ PdblpErr.valueError ("BAD_FLD" ++ ": INVALID_FIELD")
            = .valueError (fed.fieldExceptions.fieldId ++ ": INVALID_FIELD") :=
  (C4_check_field_exceptions_invalid_field
      [⟨⟨"BAD_FLD", ⟨⟨"INVALID_FIELD"⟩⟩⟩⟩]).2
    (.valueError ("BAD_FLD" ++ ": INVALID_FIELD")) rfl

/-- Queue polling leaves the sent-request list untouched. -/
theorem nextEventSt_sent (st : SessionState) :
    (nextEventSt st).2.sent = st.sent := by
  unfold nextEventSt
  cases st.queue <;> simp

/-- Claim C6 (confirmed): adopting a caller-supplied active session
performs a single poll first; construction is accepted exactly when that
poll returns a `TIMEOUT`-typed event, any other event fails it with the
precondition `ValueError`, and in every case no request has been sent (the
sent-request state is untouched). -/
theorem C6_adopt_session_requires_flushed_queue (t : Nat) (st : SessionState) :
    ((bcon_init_adopt t st).2 = .ok () ↔ (nextEventSt st).1.type = EvType.timeout)
    ∧ ((nextEventSt st).1.type ≠ EvType.timeout →
        (bcon_init_adopt t st).2
          = .error (.valueError "Flush event queue of blpapi.Session prior to instantiation"))
    ∧ (bcon_init_adopt t st).1.sent = st.sent := by
  by_cases hT : (nextEventSt st).1.type = EvType.timeout
  · refine ⟨?_, ?_, ?_⟩
    · simp [bcon_init_adopt, hT]
    · intro h; exact absurd hT h
    · simp [bcon_init_adopt, hT, nextEventSt_sent]
  · refine ⟨?_, ?_, ?_⟩
    · simp [bcon_init_adopt, hT]
    · intro _; simp [bcon_init_adopt, hT]
    · simp [bcon_init_adopt, hT, nextEventSt_sent]

/-- Witness for C6: a session whose queue head is a `RESPONSE` event is
rejected with the precondition error. -/
theorem C6_adopt_session_requires_flushed_queue_witness :
    (bcon_init_adopt 500 ⟨[⟨EvType.response, []⟩], []⟩).2
      = .error (.valueError "Flush event queue of blpapi.Session prior to instantiation") :=
  (C6_adopt_session_requires_flushed_queue 500 ⟨[⟨EvType.response, []⟩], []⟩).2.1
    (by decide)

/-- Claim C3 (counterexample): in `_parse_ref`, two batches that differ
only in the rows accumulated for the prior subject `AAA Equity` (value `1`
versus value `2` for `PX_LAST`) raise the very same fault
`ValueError("Unknow security 'YYY Equity'")` when the second subject
carries a `securityError` key — the fault names the subject but carries
only that message string, so it cannot include the rows already
accumulated; the claim that the accumulated rows are preserved by the
raised fault is false. -/
theorem C3_counterexample_ref_fault_discards_rows :
    _parse_ref ["PX_LAST"]
        [[⟨⟨"AAA Equity", none, [], ⟨[("PX_LAST", Doc.pyval (BlpValue.vint 1))]⟩⟩⟩,
          ⟨⟨"YYY Equity", some Doc.pynone, [], ⟨[]⟩⟩⟩]]
      = .error (.valueError ("Unknow security '" ++ "YYY Equity" ++ "'"))
    ∧ _parse_ref ["PX_LAST"]
        [[⟨⟨"AAA Equity", none, [], ⟨[("PX_LAST", Doc.pyval (BlpValue.vint 2))]⟩⟩⟩,
          ⟨⟨"YYY Equity", some Doc.pynone, [], ⟨[]⟩⟩⟩]]
      = .error (.valueError ("Unknow security '" ++ "YYY Equity" ++ "'"))
    ∧ _parse_ref ["PX_LAST"]
        [[⟨⟨"AAA Equity", none, [], ⟨[("PX_LAST", Doc.pyval (BlpValue.vint 1))]⟩⟩⟩]]
      = .ok [[.pstr "AAA Equity", .pstr "PX_LAST", .pdoc (Doc.pyval (BlpValue.vint 1))]]
    ∧ _parse_ref ["PX_LAST"]
        [[⟨⟨"AAA Equity", none, [], ⟨[("PX_LAST", Doc.pyval (BlpValue.vint 2))]⟩⟩⟩]]
      = .ok [[.pstr "AAA Equity", .pstr "PX_LAST", .pdoc (Doc.pyval (BlpValue.vint 2))]]
    ∧ Doc.pyval (BlpValue.vint 1) ≠ Doc.pyval (BlpValue.vint 2) := by
  refine ⟨rfl, rfl, rfl, rfl, ?_⟩
  intro h
  injection h with h'
  exact absurd h' (by decide)

/-- Claim C3 (amended): for a decoded subject record containing a
`securityError` key, the reference-data path raises a `ValueError` that
names the failed subject but whose payload is only that message string —
previously accumulated rows are not attached — while the historical path
(`_bdh_list`) raises `ValueError(data)` whose payload is exactly the rows
already accumulated for prior subjects in the batch (preserved, not
discarded) but which does not name the subject. -/
theorem C3_amended_security_error_fault_shape
    (flds : List String) (sdd : SecurityDataDict) (rest : List SecurityDataDict)
    (m1 m2 : HistResponse) (hist_rest : List HistResponse) (r1 : List Row)
    (hse : sdd.securityData.securityError.isSome)
    (h1e : m1.securityData.securityError = none)
    (h1f : m1.securityData.fieldExceptions = [])
    (h1r : _bdh_sec_rows m1.securityData.security m1.securityData.fieldData = .ok r1)
    (h2 : m2.securityData.securityError.isSome
            ∨ m2.securityData.fieldExceptions ≠ []) :
    _parse_ref_secs flds (sdd :: rest)
        = .error (.valueError ("Unknow security '" ++ sdd.securityData.security ++ "'"))
    ∧ _bdh_list (m1 :: m2 :: hist_rest) = .error (.valueErrorRows r1) := by
  constructor
  · simp [_parse_ref_secs, hse]
  · have hcond1 : (m1.securityData.securityError.isSome
        || decide (0 < m1.securityData.fieldExceptions.length)) = false := by
      simp [h1e, h1f]
    have hcond2 : (m2.securityData.securityError.isSome
        || decide (0 < m2.securityData.fieldExceptions.length)) = true := by
      rcases h2 with h | h
      · simp [h]
      · simp [List.length_pos, h]
    unfold _bdh_list _bdh_list_aux
    simp only [hcond1, Bool.false_eq_true, if_false, h1r]
    unfold _bdh_list_aux
    simp only [hcond2, if_true]
    simp

/-- Witness for the amended C3 at concrete batches. -/
theorem C3_amended_security_error_fault_shape_witness :
    _parse_ref_secs ["PX_LAST"]
        [⟨⟨"YYY Equity", some Doc.pynone, [], ⟨[]⟩⟩⟩]
      = .error (.valueError ("Unknow security '" ++ "YYY Equity" ++ "'"))
    ∧ _bdh_list
        [⟨⟨"AAA Equity", none, [],
           [⟨[("date", Doc.pystr "20160625"),
              ("PX_LAST", Doc.pyval (BlpValue.vint 7))]⟩]⟩⟩,
         ⟨⟨"YYY Equity", some Doc.pynone, [], []⟩⟩]
      = .error (.valueErrorRows
          [[.pdoc (Doc.pystr "20160625"), .pstr "AAA Equity",
            .pstr "PX_LAST", .pdoc (Doc.pyval (BlpValue.vint 7))]]) :=
  C3_amended_security_error_fault_shape ["PX_LAST"]
    ⟨⟨"YYY Equity", some Doc.pynone, [], ⟨[]⟩⟩⟩ []
    ⟨⟨"AAA Equity", none, [],
       [⟨[("date", Doc.pystr "20160625"),
          ("PX_LAST", Doc.pyval (BlpValue.vint 7))]⟩]⟩⟩
    ⟨⟨"YYY Equity", some Doc.pynone, [], []⟩⟩ []
    [[.pdoc (Doc.pystr "20160625"), .pstr "AAA Equity",
      .pstr "PX_LAST", .pdoc (Doc.pyval (BlpValue.vint 7))]]
    rfl rfl rfl rfl (Or.inl rfl)

/-- Claim C10 (counterexample): calling `_send_hist` with an empty dates
list on a session whose queue holds a stale event raises the `ValueError`
and sends nothing, but the queue is drained by request construction before
the check — it ends empty, different from its initial non-empty content —
so the claim that the session's event queue is unchanged by the failed
call is false. -/
theorem C10_counterexample_send_hist_drains_queue :
    (_send_hist [] "REFERENCE_DATE" ⟨[⟨EvType.response, []⟩], []⟩).2
        = .error (.valueError "dates must by non empty")
    ∧ (_send_hist [] "REFERENCE_DATE" ⟨[⟨EvType.response, []⟩], []⟩).1.queue = []
    ∧ ([] : List Event) ≠ [⟨EvType.response, []⟩]
    ∧ (_send_hist [] "REFERENCE_DATE" ⟨[⟨EvType.response, []⟩], []⟩).1.sent = [] :=
  ⟨rfl, rfl, fun h => List.noConfusion h, rfl⟩

/-- Claim C10 (amended): `_send_hist` with an empty dates list raises
`ValueError('dates must by non empty')` before any request is sent — the
sent-request state is unchanged — but the session's event queue is not in
general unchanged: request construction (`_create_req`) drains all stale
events from it before the emptiness check, leaving it empty. -/
theorem C10_amended_send_hist_empty_dates (date_field : String) (st : SessionState) :
    _send_hist [] date_field st
        = ({ st with queue := [] }, .error (.valueError "dates must by non empty"))
      ∧ (_send_hist [] date_field st).1.sent = st.sent := by
  constructor
  · rfl
  · rfl

/-- Rows a bulk field's decoded array should produce according to the
code's enumeration: one row per item of each element's inner record, each
row carrying the element's zero-based position. -/
def bulkRowsSpec (ticker fld : String) (i : Nat) :
    List (List (String × Doc)) → List Row
  | [] => []
  | inner :: rest =>
    inner.map (fun p => [.pstr ticker, .pstr fld, .pstr p.1, .pdoc p.2, .pnat i])
      ++ bulkRowsSpec ticker fld (i + 1) rest

/-- Enumerating a decoded bulk array whose elements have the canonical
shape of the decoder (a singleton dict keyed by the field, wrapping the
inner record) produces exactly `bulkRowsSpec`. -/
theorem parse_bulkref_elems_spec (ticker fld : String) :
    ∀ (inners : List (List (String × Doc))) (i : Nat),
      _parse_bulkref_elems ticker fld i
          (inners.map (fun inner => Doc.pydict [(fld, Doc.pydict inner)]))
        = .ok (bulkRowsSpec ticker fld i inners) := by
  intro inners
  induction inners with
  | nil => intro i; rfl
  | cons inner rest ih =>
    intro i
    simp only [List.map_cons, _parse_bulkref_elems, bulk_data_dict_items,
      List.lookup, beq_self_eq_true]
    rw [ih (i + 1)]
    simp [bulkRowsSpec]

/-- Claim C8 (counterexample): a bulk field whose decoded array has one
element with a two-item inner record produces two rows (both at position
0), not one row per array element, so the claim that bulk rows are emitted
one per array element is false. -/
theorem C8_counterexample_bulk_rows_per_item :
    _parse_bulkref_flds "BCOM Index"
        [("INDX_MWEIGHT", Doc.pylist
            [Doc.pydict [("INDX_MWEIGHT",
                Doc.pydict [("Member Ticker and Exchange Code", Doc.pystr "BON8"),
                            ("Percentage Weight", Doc.pystr "2.41")])]])]
        ["INDX_MWEIGHT"]
      = .ok [[.pstr "BCOM Index", .pstr "INDX_MWEIGHT",
              .pstr "Member Ticker and Exchange Code",
              .pdoc (Doc.pystr "BON8"), .pnat 0],
             [.pstr "BCOM Index", .pstr "INDX_MWEIGHT",
              .pstr "Percentage Weight",
              .pdoc (Doc.pystr "2.41"), .pnat 0]]
    ∧ ([[.pstr "BCOM Index", .pstr "INDX_MWEIGHT",
         .pstr "Member Ticker and Exchange Code",
         .pdoc (Doc.pystr "BON8"), .pnat 0],
        [.pstr "BCOM Index", .pstr "INDX_MWEIGHT",
         .pstr "Percentage Weight",
         .pdoc (Doc.pystr "2.41"), .pnat 0]] : List Row).length
      ≠ [Doc.pydict [("INDX_MWEIGHT",
            Doc.pydict [("Member Ticker and Exchange Code", Doc.pystr "BON8"),
                        ("Percentage Weight", Doc.pystr "2.41")])]].length := by
  refine ⟨rfl, ?_⟩
  simp

/-- Claim C8 (amended): for a requested field present in a subject's field
data, the scalar-reference path raises a `ValueError` naming the field
when the decoded value is a list, and the bulk-reference path raises the
symmetric mismatch fault naming the field when the decoded value is not a
list; bulk rows are emitted one per item of each array element's inner
record — not one per element — in element order, each row carrying the
element's zero-based position. -/
theorem C8_amended_bulk_scalar_mismatch (ticker fld : String)
    (fieldData : List (String × Doc)) :
    (∀ ds, fieldData.lookup fld = some (Doc.pylist ds) →
      _parse_ref_flds ticker fieldData [fld]
        = .error (.valueError
            ("Field '" ++ fld ++ "' returns bulk reference data which is not supported")))
    ∧ (∀ v, fieldData.lookup fld = some v → (∀ ds, v ≠ Doc.pylist ds) →
        _parse_bulkref_flds ticker fieldData [fld]
          = .error (.valueError
              ("Cannot parse field '" ++ fld ++ "' which is not bulk reference data")))
    ∧ (∀ (inners : List (List (String × Doc))) (i : Nat),
        _parse_bulkref_elems ticker fld i
            (inners.map (fun inner => Doc.pydict [(fld, Doc.pydict inner)]))
          = .ok (bulkRowsSpec ticker fld i inners)) := by
  refine ⟨?_, ?_, parse_bulkref_elems_spec ticker fld⟩
  · intro ds h
    simp [_parse_ref_flds, h]
  · intro v h hnl
    cases v with
    | pylist ds => exact absurd rfl (hnl ds)
    | pystr s => simp [_parse_bulkref_flds, h]
    | pynone => simp [_parse_bulkref_flds, h]
    | pyval w => simp [_parse_bulkref_flds, h]
    | pydict es => simp [_parse_bulkref_flds, h]

/-- Witness for the amended C8 at concrete fields. -/
theorem C8_amended_bulk_scalar_mismatch_witness :
    _parse_ref_flds "BCOM Index" [("INDX_MWEIGHT", Doc.pylist [])] ["INDX_MWEIGHT"]
        = .error (.valueError
            ("Field '" ++ "INDX_MWEIGHT"
              ++ "' returns bulk reference data which is not supported"))
    ∧ _parse_bulkref_flds "CL1 Comdty" [("PX_LAST", Doc.pyval (BlpValue.vint 7))]
          ["PX_LAST"]
        = .error (.valueError
            ("Cannot parse field '" ++ "PX_LAST"
              ++ "' which is not bulk reference data"))
    ∧ _parse_bulkref_elems "BCOM Index" "INDX_MWEIGHT" 0
          ([[("Member Ticker and Exchange Code", Doc.pystr "BON8")],
            [("Member Ticker and Exchange Code", Doc.pystr "C N8")]].map
            (fun inner => Doc.pydict [("INDX_MWEIGHT", Doc.pydict inner)]))
        = .ok (bulkRowsSpec "BCOM Index" "INDX_MWEIGHT" 0
            [[("Member Ticker and Exchange Code", Doc.pystr "BON8")],
             [("Member Ticker and Exchange Code", Doc.pystr "C N8")]]) :=
  ⟨(C8_amended_bulk_scalar_mismatch "BCOM Index" "INDX_MWEIGHT"
       [("INDX_MWEIGHT", Doc.pylist [])]).1 [] rfl,
   (C8_amended_bulk_scalar_mismatch "CL1 Comdty" "PX_LAST"
       [("PX_LAST", Doc.pyval (BlpValue.vint 7))]).2.1
     (Doc.pyval (BlpValue.vint 7)) rfl (fun ds h => Doc.noConfusion h),
   (C8_amended_bulk_scalar_mismatch "BCOM Index" "INDX_MWEIGHT" []).2.2
     [[("Member Ticker and Exchange Code", Doc.pystr "BON8")],
      [("Member Ticker and Exchange Code", Doc.pystr "C N8")]] 0⟩

/-- Claim C5 (counterexample): with `session.start()` returning `False`, a
`TIMEOUT` event carrying no `SESSION_STATUS` does not fail `start()` — the
start phase succeeds and control proceeds to service initialization — and
with `session.start()` returning `True`, a non-`SESSION_STATUS` event
raises `RuntimeError`, not `ConnectionError`; so the claim that both
situations fail with a `ConnectionError` leaving the session safely
disconnected is false. -/
theorem C5_counterexample_start_timeout_not_connection_error :
    start false 500 [⟨EvType.timeout, []⟩] = .ok []
    ∧ start true 500 [⟨EvType.serviceStatus, []⟩]
        = .error (.runtimeError
            ("Expected a \"SESSION_STATUS\" event but received a '"
              ++ "SERVICE_STATUS" ++ "'"))
    ∧ PdblpErr.runtimeError
          ("Expected a \"SESSION_STATUS\" event but received a '"
            ++ "SERVICE_STATUS" ++ "'")
        ≠ PdblpErr.connectionError
          ("Expected a \"SESSION_STATUS\" event but received a '"
            ++ "SERVICE_STATUS" ++ "'") :=
  ⟨rfl, rfl, fun h => PdblpErr.noConfusion h⟩

/-- Claim C5 (amended): during `start()`, when `session.start()` returned
`True` each awaited event of a known type other than `SESSION_STATUS`
fails the transition with a `RuntimeError` naming the received event type;
when `session.start()` returned `False`, the single polled event fails
with `ConnectionError` only when it is a `SESSION_STATUS` event, while any
other event — a `TIMEOUT` included — does not fail the start phase, whose
control falls through to service initialization; two `SESSION_STATUS`
events in succession let a started session proceed. -/
theorem C5_amended_start_event_checks (t : Nat) :
    (∀ (ev : Event) (rest : List Event) (n : String),
        _EVENT_DICT ev.type = some n → ev.type ≠ EvType.sessionStatus →
        start true t (ev :: rest)
          = .error (.runtimeError
              ("Expected a \"SESSION_STATUS\" event but received a '" ++ n ++ "'")))
    ∧ (∀ (e1 ev : Event) (rest : List Event) (n : String),
        e1.type = EvType.sessionStatus →
        _EVENT_DICT ev.type = some n → ev.type ≠ EvType.sessionStatus →
        start true t (e1 :: ev :: rest)
          = .error (.runtimeError
              ("Expected a \"SESSION_STATUS\" event but received a '" ++ n ++ "'")))
    ∧ (∀ (ev : Event) (rest : List Event),
        ev.type = EvType.sessionStatus →
        start false t (ev :: rest)
          = .error (.connectionError "Could not start blpapi.Session"))
    ∧ (∀ (ev : Event) (rest : List Event),
        ev.type ≠ EvType.sessionStatus →
        start false t (ev :: rest) = .ok rest)
    ∧ (∀ (e1 e2 : Event) (rest : List Event),
        e1.type = EvType.sessionStatus → e2.type = EvType.sessionStatus →
        start true t (e1 :: e2 :: rest) = .ok rest) := by
  refine ⟨?_, ?_, ?_, ?_, ?_⟩
  · intro ev rest n hdict hne
    simp [start, hdict, hne]
  · intro e1 ev rest n h1 hdict hne
    have hdict' : (_EVENT_DICT ev.type) = some n := hdict
    simp only [_EVENT_DICT] at hdict'
    simp [start, h1, _EVENT_DICT, hdict', hne]
  · intro ev rest h
    simp [start, h]
  · intro ev rest h
    simp [start, h]
  · intro e1 e2 rest h1 h2
    simp [start, h1, h2, _EVENT_DICT]

/-- Witness for the amended C5 at concrete events, exercising a bad first
awaited event, a good-first/bad-second pair, the not-started branch on a
`SESSION_STATUS` and on a `TIMEOUT` event, and the two-good success path. -/
theorem C5_amended_start_event_checks_witness :
    start true 500 [⟨EvType.request, []⟩]
        = .error (.runtimeError
            ("Expected a \"SESSION_STATUS\" event but received a '" ++ "REQUEST" ++ "'"))
    ∧ start true 500 [⟨EvType.sessionStatus, []⟩, ⟨EvType.serviceStatus, []⟩]
        = .error (.runtimeError
            ("Expected a \"SESSION_STATUS\" event but received a '"
              ++ "SERVICE_STATUS" ++ "'"))
    ∧ start false 500 [⟨EvType.sessionStatus, []⟩]
        = .error (.connectionError "Could not start blpapi.Session")
    ∧ start false 500 [⟨EvType.timeout, []⟩] = .ok []
    ∧ start true 500
          [⟨EvType.sessionStatus, []⟩, ⟨EvType.sessionStatus, []⟩, ⟨EvType.response, []⟩]
        = .ok [⟨EvType.response, []⟩] :=
  ⟨(C5_amended_start_event_checks 500).1 ⟨EvType.request, []⟩ [] "REQUEST" rfl
     (by decide),
   (C5_amended_start_event_checks 500).2.1 ⟨EvType.sessionStatus, []⟩
     ⟨EvType.serviceStatus, []⟩ [] "SERVICE_STATUS" rfl rfl (by decide),
   (C5_amended_start_event_checks 500).2.2.1 ⟨EvType.sessionStatus, []⟩ [] rfl,
   (C5_amended_start_event_checks 500).2.2.2.1 ⟨EvType.timeout, []⟩ [] (by decide),
   (C5_amended_start_event_checks 500).2.2.2.2 ⟨EvType.sessionStatus, []⟩
     ⟨EvType.sessionStatus, []⟩ [⟨EvType.response, []⟩] rfl rfl⟩

end Pdblp
